import Mathlib

/-!
Shallow embedding of the SRTP transport adapter
(`webrtc/pc/srtptransport.cc`, class `webrtc::SrtpTransport`).

The crypto sessions (`cricket::SrtpSession`) and the underlying packet
transport (`RtpTransport`) are external collaborators of the adapter: their
implementations are not part of the adapter's logic, so they are modelled
abstractly by an oracle record `Crypto` whose fields stand for the session
primitives (`SetSend`, `SetRecv`, `ProtectRtp`, `UnprotectRtp`, ...) and the
lower transport's send operations.  A `SrtpSession` value records exactly the
state the adapter installs into a session: the key material per direction,
the encrypted-header-extension id set, and the external-auth flag.

Packets (`rtc::CopyOnWriteBuffer`) are byte buffers with a logical length and
a capacity; here `Packet.data` is the logical content (so the logical size is
`data.length`) and `capacity` the allocation bound.  Protect/unprotect
primitives return `none` on failure (the C++ functions return `false`); on
the failure paths the C++ buffer may hold partially transformed bytes but its
logical size is never updated, and no property below depends on the bytes of
a failed transform, so the model returns the packet unchanged there.
-/

namespace FastRtc

/-- Byte buffer with a logical length (`data.length`) and a capacity bound,
modelling `rtc::CopyOnWriteBuffer` as used by the adapter. -/
structure Packet where
  data : List Nat
  capacity : Nat
deriving Repr, DecidableEq

/-- Logical size of a packet, `packet->size()`. -/
def Packet.size (p : Packet) : Nat := p.data.length

/-- The side-channel fields of `rtc::PacketTimeUpdateParams` that the
external-auth send path populates. -/
structure PacketTimeParams where
  rtp_sendtime_extension_id : Int := -1
  srtp_auth_key : List Nat := []
  srtp_auth_tag_len : Int := -1
  srtp_packet_index : Int := -1
deriving Repr, DecidableEq

/-- Send options forwarded to the underlying transport
(`rtc::PacketOptions`); only the packet-time side channel is relevant to the
adapter, the remaining fields are opaque to it. -/
structure PacketOptions where
  packet_time_params : PacketTimeParams := {}
deriving Repr, DecidableEq

/-- State the adapter installs into one `cricket::SrtpSession`: key material
per direction, the encrypted header-extension ids, and the external-auth
flag.  A freshly constructed session has nothing installed. -/
structure SrtpSession where
  sendParams : Option (Int × List Nat) := none
  recvParams : Option (Int × List Nat) := none
  encryptedHeaderExtensionIds : List Int := []
  externalAuthEnabled : Bool := false
deriving Repr, DecidableEq

/-- A freshly constructed session, `new cricket::SrtpSession()`. -/
def SrtpSession.fresh : SrtpSession := {}

/-- Oracle for the external collaborators: the session crypto primitives and
the underlying transport's send operations.  `setSendOk`/`setRecvOk` decide
whether installing the given cipher suite and key succeeds; the protect and
unprotect fields map a session's installed state and the input bytes to the
transformed bytes (`none` on cryptographic failure). -/
structure Crypto where
  setSendOk : Int → List Nat → Bool
  setRecvOk : Int → List Nat → Bool
  protectRtp : SrtpSession → List Nat → Nat → Option (List Nat)
  protectRtpWithIndex : SrtpSession → List Nat → Nat → Option (List Nat × Int)
  protectRtcp : SrtpSession → List Nat → Nat → Option (List Nat)
  unprotectRtp : SrtpSession → List Nat → Option (List Nat)
  unprotectRtcp : SrtpSession → List Nat → Option (List Nat)
  getRtpAuthParams : SrtpSession → Option (List Nat × Int)
  isExternalAuthActive : SrtpSession → Bool
  transportSendRtp : Packet → PacketOptions → Int → Bool
  transportSendRtcp : Packet → PacketOptions → Int → Bool

/-- Session member `SetSend(cs, key, len)`: installs send-direction key
material when the oracle accepts the suite and key. -/
def SrtpSession.SetSend (c : Crypto) (s : SrtpSession) (cs : Int)
    (key : List Nat) : Bool × SrtpSession :=
  if c.setSendOk cs key then (true, { s with sendParams := some (cs, key) })
  else (false, s)

/-- Session member `SetRecv(cs, key, len)`: installs receive-direction key
material when the oracle accepts the suite and key. -/
def SrtpSession.SetRecv (c : Crypto) (s : SrtpSession) (cs : Int)
    (key : List Nat) : Bool × SrtpSession :=
  if c.setRecvOk cs key then (true, { s with recvParams := some (cs, key) })
  else (false, s)

/-- Session member `SetEncryptedHeaderExtensionIds`. -/
def SrtpSession.SetEncryptedHeaderExtensionIds (s : SrtpSession)
    (ids : List Int) : SrtpSession :=
  { s with encryptedHeaderExtensionIds := ids }

/-- Session member `EnableExternalAuth`. -/
def SrtpSession.EnableExternalAuth (s : SrtpSession) : SrtpSession :=
  { s with externalAuthEnabled := true }

/-- Argument of `SetEncryptedHeaderExtensionIds`, `cricket::ContentSource`. -/
inductive ContentSource where
  | CS_LOCAL
  | CS_REMOTE
deriving Repr, DecidableEq

/-- State of `webrtc::SrtpTransport`: the four optional session slots, the
stored header-extension id sets, the external-auth flag and the cached
abs-send-time extension id. -/
structure SrtpTransport where
  content_name : String := ""
  send_session : Option SrtpSession := none
  recv_session : Option SrtpSession := none
  send_rtcp_session : Option SrtpSession := none
  recv_rtcp_session : Option SrtpSession := none
  send_encrypted_header_extension_ids : List Int := []
  recv_encrypted_header_extension_ids : List Int := []
  external_auth_enabled : Bool := false
  rtp_abs_sendtime_extn_id : Int := -1
deriving Repr, DecidableEq

/-- Member `SrtpTransport::IsActive`: both RTP sessions exist. -/
def SrtpTransport.IsActive (t : SrtpTransport) : Bool :=
  t.send_session.isSome && t.recv_session.isSome

/-- Member `SrtpTransport::ResetParams`: drops all four sessions. -/
def SrtpTransport.ResetParams (t : SrtpTransport) : SrtpTransport :=
  { t with send_session := none, recv_session := none,
           send_rtcp_session := none, recv_rtcp_session := none }

/-- Member `SrtpTransport::CreateSrtpSessions`: fresh RTP session pair; external
auth is enabled on the send session when the flag is set. -/
def SrtpTransport.CreateSrtpSessions (t : SrtpTransport) : SrtpTransport :=
  let t1 := { t with send_session := some SrtpSession.fresh,
                     recv_session := some SrtpSession.fresh }
  if t1.external_auth_enabled then
    let ss := (t1.send_session.getD SrtpSession.fresh).EnableExternalAuth
    { t1 with send_session := some ss }
  else t1

/-- Member `SrtpTransport::SetRtpParams`: create fresh sessions, apply the stored
extension ids and the external-auth flag, then install the send and receive
keys; any installation failure runs `ResetParams` and reports failure. -/
def SrtpTransport.SetRtpParams (c : Crypto) (t : SrtpTransport)
    (send_cs : Int) (send_key : List Nat)
    (recv_cs : Int) (recv_key : List Nat) : Bool × SrtpTransport :=
  let t1 := t.CreateSrtpSessions
  let ss := (t1.send_session.getD SrtpSession.fresh).SetEncryptedHeaderExtensionIds
      t1.send_encrypted_header_extension_ids
  let ss := if t1.external_auth_enabled then ss.EnableExternalAuth else ss
  let okS := (ss.SetSend c send_cs send_key).1
  let ss := (ss.SetSend c send_cs send_key).2
  let t2 := { t1 with send_session := some ss }
  if !okS then (false, t2.ResetParams)
  else
    let rs := (t2.recv_session.getD SrtpSession.fresh).SetEncryptedHeaderExtensionIds
        t2.recv_encrypted_header_extension_ids
    let okR := (rs.SetRecv c recv_cs recv_key).1
    let rs := (rs.SetRecv c recv_cs recv_key).2
    let t3 := { t2 with recv_session := some rs }
    if !okR then (false, t3.ResetParams) else (true, t3)

/-- Member `SrtpTransport::SetRtcpParams`: rejected when an RTCP session already
exists; otherwise creates the send and receive RTCP sessions.  The source
installs both tuples via `SetRecv` (lines 215 and 220), including the send
tuple on the send RTCP session. -/
def SrtpTransport.SetRtcpParams (c : Crypto) (t : SrtpTransport)
    (send_cs : Int) (send_key : List Nat)
    (recv_cs : Int) (recv_key : List Nat) : Bool × SrtpTransport :=
  if t.send_rtcp_session.isSome || t.recv_rtcp_session.isSome then (false, t)
  else
    let okS := (SrtpSession.fresh.SetRecv c send_cs send_key).1
    let s := (SrtpSession.fresh.SetRecv c send_cs send_key).2
    let t1 := { t with send_rtcp_session := some s }
    if !okS then (false, t1)
    else
      let okR := (SrtpSession.fresh.SetRecv c recv_cs recv_key).1
      let r := (SrtpSession.fresh.SetRecv c recv_cs recv_key).2
      let t2 := { t1 with recv_rtcp_session := some r }
      if !okR then (false, t2) else (true, t2)

/-- Member `SrtpTransport::SetEncryptedHeaderExtensionIds`: stores the id set in the
configuration field for the direction; local configures the receive side,
remote the send side. -/
def SrtpTransport.SetEncryptedHeaderExtensionIds (t : SrtpTransport)
    (source : ContentSource) (extension_ids : List Int) : SrtpTransport :=
  match source with
  | ContentSource.CS_LOCAL =>
      { t with recv_encrypted_header_extension_ids := extension_ids }
  | ContentSource.CS_REMOTE =>
      { t with send_encrypted_header_extension_ids := extension_ids }

/-- Member `SrtpTransport::ProtectRtp` (no index): inactive fails, otherwise the
send RTP session protects. -/
def SrtpTransport.ProtectRtp (c : Crypto) (t : SrtpTransport)
    (data : List Nat) (max_len : Nat) : Option (List Nat) :=
  if !t.IsActive then none
  else
    match t.send_session with
    | some s => c.protectRtp s data max_len
    | none => none

/-- Member `SrtpTransport::ProtectRtp` (index overload): as above, also yielding the
SRTP packet index. -/
def SrtpTransport.ProtectRtpWithIndex (c : Crypto) (t : SrtpTransport)
    (data : List Nat) (max_len : Nat) : Option (List Nat × Int) :=
  if !t.IsActive then none
  else
    match t.send_session with
    | some s => c.protectRtpWithIndex s data max_len
    | none => none

/-- Member `SrtpTransport::ProtectRtcp`: inactive fails; the dedicated RTCP send
session is used when present, otherwise the RTP send session. -/
def SrtpTransport.ProtectRtcp (c : Crypto) (t : SrtpTransport)
    (data : List Nat) (max_len : Nat) : Option (List Nat) :=
  if !t.IsActive then none
  else
    match t.send_rtcp_session with
    | some s => c.protectRtcp s data max_len
    | none =>
        match t.send_session with
        | some s => c.protectRtcp s data max_len
        | none => none

/-- Member `SrtpTransport::UnprotectRtp`: inactive fails, otherwise the receive RTP
session unprotects. -/
def SrtpTransport.UnprotectRtp (c : Crypto) (t : SrtpTransport)
    (data : List Nat) : Option (List Nat) :=
  if !t.IsActive then none
  else
    match t.recv_session with
    | some s => c.unprotectRtp s data
    | none => none

/-- Member `SrtpTransport::UnprotectRtcp`: inactive fails; the dedicated RTCP
receive session is used when present, otherwise the RTP receive session. -/
def SrtpTransport.UnprotectRtcp (c : Crypto) (t : SrtpTransport)
    (data : List Nat) : Option (List Nat) :=
  if !t.IsActive then none
  else
    match t.recv_rtcp_session with
    | some s => c.unprotectRtcp s data
    | none =>
        match t.recv_session with
        | some s => c.unprotectRtcp s data
        | none => none

/-- Member `SrtpTransport::GetRtpAuthParams`: raw auth key and tag length of the
send RTP session; inactive fails. -/
def SrtpTransport.GetRtpAuthParams (c : Crypto) (t : SrtpTransport) :
    Option (List Nat × Int) :=
  if !t.IsActive then none
  else
    match t.send_session with
    | some s => c.getRtpAuthParams s
    | none => none

/-- Member `SrtpTransport::IsExternalAuthEnabled`. -/
def SrtpTransport.IsExternalAuthEnabled (t : SrtpTransport) : Bool :=
  t.external_auth_enabled

/-- Member `SrtpTransport::IsExternalAuthActive`: false when inactive, otherwise
asks the send RTP session. -/
def SrtpTransport.IsExternalAuthActive (c : Crypto) (t : SrtpTransport) : Bool :=
  if !t.IsActive then false
  else
    match t.send_session with
    | some s => c.isExternalAuthActive s
    | none => false

/-- Member `SrtpTransport::EnableExternalAuth`: the `RTC_DCHECK(!IsActive())` is a
fatal assertion (modelled for the assertion-enabled build as `none`, the
aborted path); otherwise the flag is set. -/
def SrtpTransport.EnableExternalAuth (t : SrtpTransport) : Option SrtpTransport :=
  if t.IsActive then none
  else some { t with external_auth_enabled := true }

/-- A call the adapter forwards to the underlying transport's
`SendRtpPacket`/`SendRtcpPacket`. -/
structure SendCall where
  rtcp : Bool
  packet : Packet
  options : PacketOptions
  flags : Int
deriving Repr, DecidableEq

/-- A notification the adapter re-emits through `SignalPacketReceived`. -/
structure ReceivedSignal where
  rtcp : Bool
  packet : Packet
  packet_time : Int
deriving Repr, DecidableEq

/-- Member `SrtpTransport::SendPacket`.  `enable_external_auth` models the
`ENABLE_EXTERNAL_AUTH` compile-time flag.  Returns the boolean result, the
packet after the call, and the call forwarded to the underlying transport
(`none` when the packet was not forwarded). -/
def SrtpTransport.SendPacket (c : Crypto) (enable_external_auth : Bool)
    (t : SrtpTransport) (rtcp : Bool) (packet : Packet)
    (options : PacketOptions) (flags : Int) :
    Bool × Packet × Option SendCall :=
  if !t.IsActive then (false, packet, none)
  else
    let updated_options := options
    if !rtcp then
      if !enable_external_auth || !(t.IsExternalAuthActive c) then
        match t.ProtectRtp c packet.data packet.capacity with
        | none => (false, packet, none)
        | some d =>
            let packet := { packet with data := d }
            (c.transportSendRtp packet updated_options flags, packet,
             some ⟨false, packet, updated_options, flags⟩)
      else
        let ptp := updated_options.packet_time_params
        let ptp := { ptp with rtp_sendtime_extension_id := t.rtp_abs_sendtime_extn_id }
        let uo := { updated_options with packet_time_params := ptp }
        match t.ProtectRtpWithIndex c packet.data packet.capacity with
        | none => (false, packet, none)
        | some (d, index) =>
            let ptp := { ptp with srtp_packet_index := index }
            let uo := { uo with packet_time_params := ptp }
            match t.GetRtpAuthParams c with
            | none => (false, packet, none)
            | some (auth_key, tag_len) =>
                let ptp := { ptp with srtp_auth_tag_len := tag_len,
                                      srtp_auth_key := auth_key }
                let uo := { uo with packet_time_params := ptp }
                let packet := { packet with data := d }
                (c.transportSendRtp packet uo flags, packet,
                 some ⟨false, packet, uo, flags⟩)
    else
      match t.ProtectRtcp c packet.data packet.capacity with
      | none => (false, packet, none)
      | some d =>
          let packet := { packet with data := d }
          (c.transportSendRtcp packet updated_options flags, packet,
           some ⟨true, packet, updated_options, flags⟩)

/-- Member `SrtpTransport::OnPacketReceived`: drop when inactive or when unprotect
fails; otherwise shrink to the plaintext length and re-emit with the original
classification and arrival time. -/
def SrtpTransport.OnPacketReceived (c : Crypto) (t : SrtpTransport)
    (rtcp : Bool) (packet : Packet) (packet_time : Int) :
    Option ReceivedSignal :=
  if !t.IsActive then none
  else if !rtcp then
    match t.UnprotectRtp c packet.data with
    | none => none
    | some d => some ⟨rtcp, { packet with data := d }, packet_time⟩
  else
    match t.UnprotectRtcp c packet.data with
    | none => none
    | some d => some ⟨rtcp, { packet with data := d }, packet_time⟩

/-- Concrete oracle used to witness the theorems on explicit states: keys
with a positive suite id install successfully, protect appends one tag byte
when capacity allows, unprotect strips the last byte of a nonempty buffer. -/
def demoCrypto : Crypto where
  setSendOk := fun cs _key => decide (0 < cs)
  setRecvOk := fun cs _key => decide (0 < cs)
  protectRtp := fun _s d max_len =>
    if d.length + 1 ≤ max_len then some (d ++ [7]) else none
  protectRtpWithIndex := fun _s d max_len =>
    if d.length + 1 ≤ max_len then some (d ++ [8], 42) else none
  protectRtcp := fun _s d max_len =>
    if d.length + 1 ≤ max_len then some (d ++ [9]) else none
  unprotectRtp := fun _s d => if 1 ≤ d.length then some d.dropLast else none
  unprotectRtcp := fun _s d => if 1 ≤ d.length then some d.dropLast else none
  getRtpAuthParams := fun _s => some ([1, 2, 3, 4], 10)
  isExternalAuthActive := fun s => s.externalAuthEnabled
  transportSendRtp := fun _p _o _f => true
  transportSendRtcp := fun _p _o _f => true

/-- Adapter state that has never been configured. -/
def demoInactive : SrtpTransport := {}

/-- Adapter state after a successful `SetRtpParams` under `demoCrypto`. -/
def demoActive : SrtpTransport :=
  (SrtpTransport.SetRtpParams demoCrypto demoInactive 1 [10] 2 [20]).2

/-- Adapter state after additionally setting RTCP parameters. -/
def demoWithRtcp : SrtpTransport :=
  (SrtpTransport.SetRtcpParams demoCrypto demoActive 3 [30] 4 [40]).2

/-- Adapter state activated with external auth enabled beforehand. -/
def demoExtAuth : SrtpTransport :=
  (SrtpTransport.SetRtpParams demoCrypto
    ((SrtpTransport.EnableExternalAuth demoInactive).getD demoInactive)
    1 [10] 2 [20]).2

/-- A sample packet with capacity headroom for one tag byte. -/
def demoPacket : Packet := ⟨[100, 101, 102], 8⟩

/-- C2: when the adapter is not Active — in particular after any
`ResetParams` — `SendPacket` returns false for both RTP and RTCP, leaves the
packet's bytes and logical length unchanged, and forwards nothing to the
underlying transport. -/
theorem sendPacket_fails_closed_when_inactive (c : Crypto) (eab : Bool)
    (t : SrtpTransport) (rtcp : Bool) (p : Packet) (o : PacketOptions)
    (f : Int) :
    (t.IsActive = false → t.SendPacket c eab rtcp p o f = (false, p, none))
    ∧ t.ResetParams.IsActive = false
    ∧ t.ResetParams.SendPacket c eab rtcp p o f = (false, p, none) := by
  refine ⟨fun h => ?_, rfl, ?_⟩
  · simp [SrtpTransport.SendPacket, h]
  · simp [SrtpTransport.SendPacket, SrtpTransport.IsActive,
      SrtpTransport.ResetParams]

/-- Witness for C2 at a concrete inactive state and packet. -/
theorem sendPacket_fails_closed_when_inactive_witness :
    demoInactive.IsActive = false ∧
    demoInactive.SendPacket demoCrypto true false demoPacket {} 0
      = (false, demoPacket, none) :=
  ⟨by decide,
    (sendPacket_fails_closed_when_inactive demoCrypto true demoInactive false
      demoPacket {} 0).1 (by decide)⟩

/-- C5: whenever an RTCP session already exists (send or receive side),
`SetRtcpParams` returns false and the whole adapter state is unchanged. -/
theorem setRtcpParams_rejected_when_already_set (c : Crypto)
    (t : SrtpTransport) (scs : Int) (sk : List Nat) (rcs : Int)
    (rk : List Nat)
    (h : (t.send_rtcp_session.isSome || t.recv_rtcp_session.isSome) = true) :
    t.SetRtcpParams c scs sk rcs rk = (false, t) := by
  simp only [SrtpTransport.SetRtcpParams, h, if_true]

/-- Witness for C5 at a state whose RTCP sessions are set. -/
theorem setRtcpParams_rejected_when_already_set_witness :
    (demoWithRtcp.send_rtcp_session.isSome
        || demoWithRtcp.recv_rtcp_session.isSome) = true ∧
    demoWithRtcp.SetRtcpParams demoCrypto 5 [50] 6 [60]
      = (false, demoWithRtcp) :=
  ⟨by decide,
    setRtcpParams_rejected_when_already_set demoCrypto demoWithRtcp 5 [50] 6
      [60] (by decide)⟩

/-- C9: `EnableExternalAuth` hits its fatal assertion when the adapter is
Active (the aborted path, modelled as `none`); under the precondition that
the adapter is inactive it returns normally, setting the external-auth flag
and changing nothing else. -/
theorem enableExternalAuth_precondition (t : SrtpTransport) :
    (t.IsActive = true → t.EnableExternalAuth = none)
    ∧ (t.IsActive = false →
        t.EnableExternalAuth = some { t with external_auth_enabled := true }
        ∧ ∀ t2, t.EnableExternalAuth = some t2 →
            t2.IsExternalAuthEnabled = true) := by
  constructor
  · intro h
    simp [SrtpTransport.EnableExternalAuth, h]
  · intro h
    refine ⟨by simp [SrtpTransport.EnableExternalAuth, h], fun t2 h2 => ?_⟩
    simp [SrtpTransport.EnableExternalAuth, h] at h2
    rw [Eq.symm h2]
    rfl

/-- Witness for C9 at a concrete inactive state. -/
theorem enableExternalAuth_precondition_witness :
    demoInactive.IsActive = false ∧
    demoInactive.EnableExternalAuth
      = some { demoInactive with external_auth_enabled := true } :=
  ⟨by decide, ((enableExternalAuth_precondition demoInactive).2 (by decide)).1⟩

/-- C3: `SetRtpParams` is all-or-nothing: its result is true exactly when
both key installations succeed; on failure all four session slots are null
and the adapter is inactive; on success the adapter is Active. -/
theorem setRtpParams_all_or_nothing (c : Crypto) (t : SrtpTransport)
    (scs : Int) (sk : List Nat) (rcs : Int) (rk : List Nat) :
    (t.SetRtpParams c scs sk rcs rk).1
        = (c.setSendOk scs sk && c.setRecvOk rcs rk)
    ∧ ((t.SetRtpParams c scs sk rcs rk).1 = false →
        (t.SetRtpParams c scs sk rcs rk).2.send_session = none
        ∧ (t.SetRtpParams c scs sk rcs rk).2.recv_session = none
        ∧ (t.SetRtpParams c scs sk rcs rk).2.send_rtcp_session = none
        ∧ (t.SetRtpParams c scs sk rcs rk).2.recv_rtcp_session = none
        ∧ (t.SetRtpParams c scs sk rcs rk).2.IsActive = false)
    ∧ ((t.SetRtpParams c scs sk rcs rk).1 = true →
        (t.SetRtpParams c scs sk rcs rk).2.IsActive = true) := by
  by_cases h3 : t.external_auth_enabled <;>
    by_cases h1 : c.setSendOk scs sk <;>
      by_cases h2 : c.setRecvOk rcs rk <;>
        simp [SrtpTransport.SetRtpParams, SrtpTransport.CreateSrtpSessions,
          SrtpSession.SetSend, SrtpSession.SetRecv,
          SrtpSession.SetEncryptedHeaderExtensionIds,
          SrtpSession.EnableExternalAuth, SrtpSession.fresh,
          SrtpTransport.ResetParams, SrtpTransport.IsActive, h1, h2, h3]

/-- Witness for C3: a failing receive-key installation tears everything
down, a fully successful call activates the adapter. -/
theorem setRtpParams_all_or_nothing_witness :
    ((demoInactive.SetRtpParams demoCrypto 1 [10] 0 [20]).1 = false →
      (demoInactive.SetRtpParams demoCrypto 1 [10] 0 [20]).2.send_session
          = none
      ∧ (demoInactive.SetRtpParams demoCrypto 1 [10] 0 [20]).2.recv_session
          = none
      ∧ (demoInactive.SetRtpParams demoCrypto 1 [10] 0
          [20]).2.send_rtcp_session = none
      ∧ (demoInactive.SetRtpParams demoCrypto 1 [10] 0
          [20]).2.recv_rtcp_session = none
      ∧ (demoInactive.SetRtpParams demoCrypto 1 [10] 0 [20]).2.IsActive
          = false)
    ∧ (demoInactive.SetRtpParams demoCrypto 1 [10] 0 [20]).1 = false
    ∧ ((demoInactive.SetRtpParams demoCrypto 1 [10] 2 [20]).1 = true →
        (demoInactive.SetRtpParams demoCrypto 1 [10] 2 [20]).2.IsActive
          = true)
    ∧ (demoInactive.SetRtpParams demoCrypto 1 [10] 2 [20]).1 = true :=
  ⟨(setRtpParams_all_or_nothing demoCrypto demoInactive 1 [10] 0 [20]).2.1,
    by decide,
    (setRtpParams_all_or_nothing demoCrypto demoInactive 1 [10] 2 [20]).2.2,
    by decide⟩

/-- C1: `OnPacketReceived` forwards a packet to `SignalPacketReceived` if
and only if the adapter is Active and the corresponding unprotect operation
succeeds; the forwarded packet carries the plaintext as its logical content
(so its size is the plaintext length), the original capacity, and the
original RTP/RTCP classification and arrival time.  In every other case
nothing is emitted. -/
theorem onPacketReceived_forwards_iff (c : Crypto) (t : SrtpTransport)
    (rtcp : Bool) (p : Packet) (pt : Int) :
    ((t.OnPacketReceived c rtcp p pt).isSome
      = (t.IsActive &&
          (if rtcp then t.UnprotectRtcp c p.data
           else t.UnprotectRtp c p.data).isSome))
    ∧ (∀ d, (if rtcp then t.UnprotectRtcp c p.data
             else t.UnprotectRtp c p.data) = some d →
        t.OnPacketReceived c rtcp p pt
          = some ⟨rtcp, { p with data := d }, pt⟩)
    ∧ (∀ sig, t.OnPacketReceived c rtcp p pt = some sig →
        t.IsActive = true ∧ sig.rtcp = rtcp ∧ sig.packet_time = pt
        ∧ (if rtcp then t.UnprotectRtcp c p.data
           else t.UnprotectRtp c p.data) = some sig.packet.data
        ∧ sig.packet.capacity = p.capacity) := by
  cases rtcp with
  | false =>
    cases hA : t.IsActive with
    | false =>
      have hU : t.UnprotectRtp c p.data = none := by
        simp [SrtpTransport.UnprotectRtp, hA]
      simp [SrtpTransport.OnPacketReceived, hA, hU]
    | true =>
      cases hU : t.UnprotectRtp c p.data with
      | none => simp [SrtpTransport.OnPacketReceived, hA, hU]
      | some d =>
        simp [SrtpTransport.OnPacketReceived, hA, hU]
  | true =>
    cases hA : t.IsActive with
    | false =>
      have hU : t.UnprotectRtcp c p.data = none := by
        simp [SrtpTransport.UnprotectRtcp, hA]
      simp [SrtpTransport.OnPacketReceived, hA, hU]
    | true =>
      cases hU : t.UnprotectRtcp c p.data with
      | none => simp [SrtpTransport.OnPacketReceived, hA, hU]
      | some d =>
        simp [SrtpTransport.OnPacketReceived, hA, hU]

/-- Witness for C1: a successful unprotect at a concrete active state is
re-emitted shrunk to the plaintext, and the emission matches. -/
theorem onPacketReceived_forwards_iff_witness :
    (if false then
        SrtpTransport.UnprotectRtcp demoCrypto demoActive demoPacket.data
      else SrtpTransport.UnprotectRtp demoCrypto demoActive demoPacket.data)
        = some [100, 101] ∧
    demoActive.OnPacketReceived demoCrypto false demoPacket 99
      = some ⟨false, { demoPacket with data := [100, 101] }, 99⟩ :=
  ⟨by decide,
    (onPacketReceived_forwards_iff demoCrypto demoActive false demoPacket
      99).2.1 [100, 101] (by decide)⟩

/-- C6: in every Active state, `ProtectRtcp` uses the dedicated RTCP send
session when it exists and otherwise delegates to the RTP send session's
RTCP-protect operation; `UnprotectRtcp` symmetrically uses the dedicated
RTCP receive session or falls back to the RTP receive session. -/
theorem rtcp_uses_dedicated_session_or_falls_back (c : Crypto)
    (t : SrtpTransport) (data : List Nat) (max_len : Nat)
    (h : t.IsActive = true) :
    (t.send_rtcp_session = none → ∀ s, t.send_session = some s →
        t.ProtectRtcp c data max_len = c.protectRtcp s data max_len)
    ∧ (∀ s, t.send_rtcp_session = some s →
        t.ProtectRtcp c data max_len = c.protectRtcp s data max_len)
    ∧ (t.recv_rtcp_session = none → ∀ s, t.recv_session = some s →
        t.UnprotectRtcp c data = c.unprotectRtcp s data)
    ∧ (∀ s, t.recv_rtcp_session = some s →
        t.UnprotectRtcp c data = c.unprotectRtcp s data) := by
  refine ⟨fun h0 s hs => ?_, fun s hs => ?_, fun h0 s hs => ?_,
    fun s hs => ?_⟩
  · simp [SrtpTransport.ProtectRtcp, h, h0, hs]
  · simp [SrtpTransport.ProtectRtcp, h, hs]
  · simp [SrtpTransport.UnprotectRtcp, h, h0, hs]
  · simp [SrtpTransport.UnprotectRtcp, h, hs]

/-- Witness for C6: at an RTP-only active state the RTCP protect path uses
the RTP send session's key material. -/
theorem rtcp_uses_dedicated_session_or_falls_back_witness :
    demoActive.IsActive = true ∧
    demoActive.send_rtcp_session = none ∧
    demoActive.send_session = some ⟨some (1, [10]), none, [], false⟩ ∧
    SrtpTransport.ProtectRtcp demoCrypto demoActive [1, 2] 4
      = demoCrypto.protectRtcp ⟨some (1, [10]), none, [], false⟩ [1, 2] 4 :=
  ⟨by decide, by decide, by decide,
    (rtcp_uses_dedicated_session_or_falls_back demoCrypto demoActive [1, 2] 4
        (by decide)).1 (by decide) ⟨some (1, [10]), none, [], false⟩
      (by decide)⟩

/-- C10: when no RTCP session exists and the first (send-side) RTCP key
installation fails, `SetRtcpParams` returns false but leaves the freshly
created send RTCP session — with no key material installed — in its slot,
so every later `SetRtcpParams` call is rejected with the state unchanged,
until `ResetParams` clears the slots. -/
theorem setRtcpParams_leaks_session_on_first_failure (c : Crypto)
    (t : SrtpTransport) (scs : Int) (sk : List Nat) (rcs : Int)
    (rk : List Nat) (h1 : t.send_rtcp_session = none)
    (h2 : t.recv_rtcp_session = none) (hfail : c.setRecvOk scs sk = false) :
    (t.SetRtcpParams c scs sk rcs rk).1 = false
    ∧ (t.SetRtcpParams c scs sk rcs rk).2.send_rtcp_session
        = some SrtpSession.fresh
    ∧ SrtpSession.fresh.sendParams = none
    ∧ SrtpSession.fresh.recvParams = none
    ∧ (∀ scs2 sk2 rcs2 rk2,
        (t.SetRtcpParams c scs sk rcs rk).2.SetRtcpParams c scs2 sk2 rcs2 rk2
          = (false, (t.SetRtcpParams c scs sk rcs rk).2))
    ∧ (t.SetRtcpParams c scs sk rcs rk).2.ResetParams.send_rtcp_session = none
    ∧ (t.SetRtcpParams c scs sk rcs
        rk).2.ResetParams.recv_rtcp_session = none := by
  have hred : t.SetRtcpParams c scs sk rcs rk
      = (false, { t with send_rtcp_session := some SrtpSession.fresh }) := by
    simp [SrtpTransport.SetRtcpParams, h1, h2, SrtpSession.SetRecv, hfail,
      SrtpSession.fresh]
  rw [hred]
  refine ⟨rfl, rfl, rfl, rfl, ?_, rfl, rfl⟩
  intro scs2 sk2 rcs2 rk2
  simp [SrtpTransport.SetRtcpParams]

/-- Witness for C10 at a concrete active state with a rejected send-side
RTCP key. -/
theorem setRtcpParams_leaks_session_on_first_failure_witness :
    demoActive.send_rtcp_session = none ∧
    demoActive.recv_rtcp_session = none ∧
    demoCrypto.setRecvOk 0 [9] = false ∧
    (demoActive.SetRtcpParams demoCrypto 0 [9] 1 [9]).1 = false ∧
    (demoActive.SetRtcpParams demoCrypto 0 [9] 1
        [9]).2.SetRtcpParams demoCrypto 3 [30] 4 [40]
      = (false, (demoActive.SetRtcpParams demoCrypto 0 [9] 1 [9]).2) :=
  ⟨by decide, by decide, by decide,
    (setRtcpParams_leaks_session_on_first_failure demoCrypto demoActive 0 [9]
        1 [9] (by decide) (by decide) (by decide)).1,
    (setRtcpParams_leaks_session_on_first_failure demoCrypto demoActive 0 [9]
        1 [9] (by decide) (by decide) (by decide)).2.2.2.2.1 3 [30] 4 [40]⟩

/-- C4 (evaluation of the code at the claimed scenario): in a state with no
RTCP sessions and both installations accepted, `SetRtcpParams` succeeds, but
the source installs the send tuple via `SetRecv` (srtptransport.cc line
215): the resulting send RTCP session holds `(scs, sk)` as
receive-direction (unprotect) key material and has no send-direction
(protect) key material, while the receive RTCP session holds `(rcs, rk)` as
receive-direction material as the claim states. -/
theorem setRtcpParams_installs_send_tuple_as_recv (c : Crypto)
    (t : SrtpTransport) (scs : Int) (sk : List Nat) (rcs : Int)
    (rk : List Nat) (h1 : t.send_rtcp_session = none)
    (h2 : t.recv_rtcp_session = none) (hs : c.setRecvOk scs sk = true)
    (hr : c.setRecvOk rcs rk = true) :
    (t.SetRtcpParams c scs sk rcs rk).1 = true
    ∧ (t.SetRtcpParams c scs sk rcs rk).2.send_rtcp_session
        = some { SrtpSession.fresh with recvParams := some (scs, sk) }
    ∧ (∀ s, (t.SetRtcpParams c scs sk rcs rk).2.send_rtcp_session = some s →
        s.sendParams = none)
    ∧ (t.SetRtcpParams c scs sk rcs rk).2.recv_rtcp_session
        = some { SrtpSession.fresh with recvParams := some (rcs, rk) } := by
  have hred : t.SetRtcpParams c scs sk rcs rk
      = (true, { t with
          send_rtcp_session :=
            some { SrtpSession.fresh with recvParams := some (scs, sk) },
          recv_rtcp_session :=
            some { SrtpSession.fresh with recvParams := some (rcs, rk) } }) := by
    simp [SrtpTransport.SetRtcpParams, h1, h2, SrtpSession.SetRecv, hs, hr,
      SrtpSession.fresh]
  rw [hred]
  refine ⟨rfl, rfl, fun s hsq => ?_, rfl⟩
  simp only [Option.some.injEq] at hsq
  rw [Eq.symm hsq]
  rfl

/-- Witness for C4's evaluation theorem at a concrete state. -/
theorem setRtcpParams_installs_send_tuple_as_recv_witness :
    demoActive.send_rtcp_session = none ∧
    demoActive.recv_rtcp_session = none ∧
    demoCrypto.setRecvOk 3 [30] = true ∧
    demoCrypto.setRecvOk 4 [40] = true ∧
    (demoActive.SetRtcpParams demoCrypto 3 [30] 4 [40]).1 = true ∧
    (demoActive.SetRtcpParams demoCrypto 3 [30] 4 [40]).2.send_rtcp_session
      = some { SrtpSession.fresh with recvParams := some (3, [30]) } :=
  ⟨by decide, by decide, by decide, by decide,
    (setRtcpParams_installs_send_tuple_as_recv demoCrypto demoActive 3 [30] 4
        [40] (by decide) (by decide) (by decide) (by decide)).1,
    (setRtcpParams_installs_send_tuple_as_recv demoCrypto demoActive 3 [30] 4
        [40] (by decide) (by decide) (by decide) (by decide)).2.1⟩

/-- Send options whose packet-time side channel holds the abs-send-time
extension id of the adapter, the raw auth key, the tag length and the SRTP
packet index — the shape the external-auth send path forwards. -/
def externalAuthOptions (t : SrtpTransport) (o : PacketOptions)
    (ak : List Nat) (tl idx : Int) : PacketOptions :=
  { o with packet_time_params := ⟨t.rtp_abs_sendtime_extn_id, ak, tl, idx⟩ }

/-- C7: in the external-auth build, when external auth is active a
forwarded RTP `SendPacket` protects through the index-producing primitive
and forwards options whose side channel carries the session's raw auth key,
key length and tag length, the configured abs-send-time extension id and
the packet's SRTP packet index; when external auth is not active (in either
build) the packet is protected fully locally and the forwarded options are
exactly the caller's. -/
theorem sendPacket_external_auth_side_channel (c : Crypto)
    (t : SrtpTransport) (p : Packet) (o : PacketOptions) (f : Int) :
    (∀ d idx ak tl,
      t.IsExternalAuthActive c = true →
      t.ProtectRtpWithIndex c p.data p.capacity = some (d, idx) →
      t.GetRtpAuthParams c = some (ak, tl) →
      t.SendPacket c true false p o f
        = (c.transportSendRtp { p with data := d }
            (externalAuthOptions t o ak tl idx) f,
           { p with data := d },
           some ⟨false, { p with data := d },
             externalAuthOptions t o ak tl idx, f⟩))
    ∧ (∀ eab res p2 call, t.IsExternalAuthActive c = false →
        t.SendPacket c eab false p o f = (res, p2, some call) →
          call.options = o
          ∧ t.ProtectRtp c p.data p.capacity = some call.packet.data) := by
  constructor
  · intro d idx ak tl hX hP hG
    have hA : t.IsActive = true := by
      cases hA2 : t.IsActive with
      | false =>
        rw [SrtpTransport.IsExternalAuthActive, hA2] at hX
        simp at hX
      | true => rfl
    rw [SrtpTransport.SendPacket]
    simp [hA, hX, hP, hG, externalAuthOptions]
  · intro eab res p2 call hX h
    cases hA : t.IsActive with
    | false =>
      rw [SrtpTransport.SendPacket] at h
      simp [hA] at h
    | true =>
      rw [SrtpTransport.SendPacket] at h
      simp only [hA, hX] at h
      cases hP : t.ProtectRtp c p.data p.capacity with
      | none => simp [hP] at h
      | some dd =>
        simp [hP] at h
        obtain ⟨hres, hp2, hcall⟩ := h
        subst hcall
        exact ⟨rfl, rfl⟩

/-- Witness for C7 at a state activated with external auth enabled. -/
theorem sendPacket_external_auth_side_channel_witness :
    demoExtAuth.IsExternalAuthActive demoCrypto = true ∧
    demoExtAuth.ProtectRtpWithIndex demoCrypto demoPacket.data
        demoPacket.capacity = some ([100, 101, 102, 8], 42) ∧
    demoExtAuth.GetRtpAuthParams demoCrypto = some ([1, 2, 3, 4], 10) ∧
    demoExtAuth.SendPacket demoCrypto true false demoPacket {} 0
      = (demoCrypto.transportSendRtp
          { demoPacket with data := [100, 101, 102, 8] }
          (externalAuthOptions demoExtAuth {} [1, 2, 3, 4] 10 42) 0,
         { demoPacket with data := [100, 101, 102, 8] },
         some ⟨false, { demoPacket with data := [100, 101, 102, 8] },
           externalAuthOptions demoExtAuth {} [1, 2, 3, 4] 10 42, 0⟩) :=
  ⟨by decide, by decide, by decide,
    (sendPacket_external_auth_side_channel demoCrypto demoExtAuth demoPacket
        {} 0).1 [100, 101, 102, 8] 42 [1, 2, 3, 4] 10 (by decide) (by decide)
      (by decide)⟩

/-- C8 counterexample: at a concrete active state whose live receive
session has the empty encrypted-extension id set, calling
`SetEncryptedHeaderExtensionIds` with local direction and ids `[5]` updates
only the stored configuration field; the live receive session still has the
empty id set, not `[5]`, refuting the claim that the set is applied to the
live session. -/
theorem setEncryptedIds_not_applied_to_live_session :
    (demoActive.SetEncryptedHeaderExtensionIds ContentSource.CS_LOCAL
        [5]).recv_session = some ⟨none, some (2, [20]), [], false⟩ ∧
    ([] : List Int) ≠ [5] ∧
    (demoActive.SetEncryptedHeaderExtensionIds ContentSource.CS_LOCAL
        [5]).recv_encrypted_header_extension_ids = [5] :=
  ⟨by decide, by decide, by decide⟩

/-- C8 (amended): `SetEncryptedHeaderExtensionIds` never touches live
sessions; it records the id set in the configuration field of the matching
direction (local configures the receive side, remote the send side), and the
recorded set is applied to the corresponding fresh session by the next
successful `SetRtpParams`. -/
theorem setEncryptedIds_recorded_for_next_activation (t : SrtpTransport)
    (src : ContentSource) (ids : List Int) (c : Crypto) (scs : Int)
    (sk : List Nat) (rcs : Int) (rk : List Nat) :
    (t.SetEncryptedHeaderExtensionIds src ids).send_session = t.send_session
    ∧ (t.SetEncryptedHeaderExtensionIds src ids).recv_session
        = t.recv_session
    ∧ (t.SetEncryptedHeaderExtensionIds src ids).send_rtcp_session
        = t.send_rtcp_session
    ∧ (t.SetEncryptedHeaderExtensionIds src ids).recv_rtcp_session
        = t.recv_rtcp_session
    ∧ (src = ContentSource.CS_LOCAL →
        (t.SetEncryptedHeaderExtensionIds src
            ids).recv_encrypted_header_extension_ids = ids)
    ∧ (src = ContentSource.CS_REMOTE →
        (t.SetEncryptedHeaderExtensionIds src
            ids).send_encrypted_header_extension_ids = ids)
    ∧ (∀ t2, (t.SetEncryptedHeaderExtensionIds src ids).SetRtpParams c scs
          sk rcs rk = (true, t2) →
        (src = ContentSource.CS_LOCAL → ∀ s, t2.recv_session = some s →
            s.encryptedHeaderExtensionIds = ids)
        ∧ (src = ContentSource.CS_REMOTE → ∀ s, t2.send_session = some s →
            s.encryptedHeaderExtensionIds = ids)) := by
  cases src with
  | CS_LOCAL =>
    refine ⟨rfl, rfl, rfl, rfl, fun _ => rfl,
      fun hc => absurd hc (by decide), ?_⟩
    intro t2 h
    refine ⟨fun _ s hs => ?_, fun hc => absurd hc (by decide)⟩
    by_cases hk1 : c.setSendOk scs sk
    case neg =>
      by_cases h3 : t.external_auth_enabled <;>
        simp [SrtpTransport.SetEncryptedHeaderExtensionIds,
          SrtpTransport.SetRtpParams, SrtpTransport.CreateSrtpSessions,
          SrtpSession.SetSend, SrtpSession.SetRecv,
          SrtpSession.SetEncryptedHeaderExtensionIds,
          SrtpSession.EnableExternalAuth, SrtpSession.fresh,
          SrtpTransport.ResetParams, h3, hk1] at h
    case pos =>
      by_cases hk2 : c.setRecvOk rcs rk
      case neg =>
        by_cases h3 : t.external_auth_enabled <;>
          simp [SrtpTransport.SetEncryptedHeaderExtensionIds,
            SrtpTransport.SetRtpParams, SrtpTransport.CreateSrtpSessions,
            SrtpSession.SetSend, SrtpSession.SetRecv,
            SrtpSession.SetEncryptedHeaderExtensionIds,
            SrtpSession.EnableExternalAuth, SrtpSession.fresh,
            SrtpTransport.ResetParams, h3, hk1, hk2] at h
      case pos =>
        by_cases h3 : t.external_auth_enabled <;>
          · simp [SrtpTransport.SetEncryptedHeaderExtensionIds,
              SrtpTransport.SetRtpParams, SrtpTransport.CreateSrtpSessions,
              SrtpSession.SetSend, SrtpSession.SetRecv,
              SrtpSession.SetEncryptedHeaderExtensionIds,
              SrtpSession.EnableExternalAuth, SrtpSession.fresh,
              SrtpTransport.ResetParams, h3, hk1, hk2] at h
            rw [Eq.symm h] at hs
            simp at hs
            subst hs
            rfl
  | CS_REMOTE =>
    refine ⟨rfl, rfl, rfl, rfl, fun hc => absurd hc (by decide),
      fun _ => rfl, ?_⟩
    intro t2 h
    refine ⟨fun hc => absurd hc (by decide), fun _ s hs => ?_⟩
    by_cases hk1 : c.setSendOk scs sk
    case neg =>
      by_cases h3 : t.external_auth_enabled <;>
        simp [SrtpTransport.SetEncryptedHeaderExtensionIds,
          SrtpTransport.SetRtpParams, SrtpTransport.CreateSrtpSessions,
          SrtpSession.SetSend, SrtpSession.SetRecv,
          SrtpSession.SetEncryptedHeaderExtensionIds,
          SrtpSession.EnableExternalAuth, SrtpSession.fresh,
          SrtpTransport.ResetParams, h3, hk1] at h
    case pos =>
      by_cases hk2 : c.setRecvOk rcs rk
      case neg =>
        by_cases h3 : t.external_auth_enabled <;>
          simp [SrtpTransport.SetEncryptedHeaderExtensionIds,
            SrtpTransport.SetRtpParams, SrtpTransport.CreateSrtpSessions,
            SrtpSession.SetSend, SrtpSession.SetRecv,
            SrtpSession.SetEncryptedHeaderExtensionIds,
            SrtpSession.EnableExternalAuth, SrtpSession.fresh,
            SrtpTransport.ResetParams, h3, hk1, hk2] at h
      case pos =>
        by_cases h3 : t.external_auth_enabled <;>
          · simp [SrtpTransport.SetEncryptedHeaderExtensionIds,
              SrtpTransport.SetRtpParams, SrtpTransport.CreateSrtpSessions,
              SrtpSession.SetSend, SrtpSession.SetRecv,
              SrtpSession.SetEncryptedHeaderExtensionIds,
              SrtpSession.EnableExternalAuth, SrtpSession.fresh,
              SrtpTransport.ResetParams, h3, hk1, hk2] at h
            rw [Eq.symm h] at hs
            simp at hs
            subst hs
            rfl

/-- Witness for the amended C8: ids recorded before activation reach the
session created by the next successful `SetRtpParams`. -/
theorem setEncryptedIds_recorded_for_next_activation_witness :
    (demoInactive.SetEncryptedHeaderExtensionIds ContentSource.CS_LOCAL
        [5]).SetRtpParams demoCrypto 1 [10] 2 [20]
      = (true, ((demoInactive.SetEncryptedHeaderExtensionIds
          ContentSource.CS_LOCAL [5]).SetRtpParams demoCrypto 1 [10] 2
          [20]).2) ∧
    ((demoInactive.SetEncryptedHeaderExtensionIds ContentSource.CS_LOCAL
        [5]).SetRtpParams demoCrypto 1 [10] 2 [20]).2.recv_session
      = some ⟨none, some (2, [20]), [5], false⟩ ∧
    (⟨none, some (2, [20]), [5], false⟩
        : SrtpSession).encryptedHeaderExtensionIds = [5] :=
  ⟨by decide, by decide,
    ((setEncryptedIds_recorded_for_next_activation demoInactive
        ContentSource.CS_LOCAL [5] demoCrypto 1 [10] 2 [20]).2.2.2.2.2.2
      ((demoInactive.SetEncryptedHeaderExtensionIds ContentSource.CS_LOCAL
          [5]).SetRtpParams demoCrypto 1 [10] 2 [20]).2
      (by decide)).1 rfl
      ⟨none, some (2, [20]), [5], false⟩ (by decide)⟩

end FastRtc
